import Mathlib

/-!
Verification of `generate_release_yaml.py`.

Shallow embedding of the Konflux production-release generator
(`claudio-plugin/skills/konflux/scripts/generate_release_yaml.py`) and proofs
about its specified behaviour.

Modelling conventions:
* YAML / JSON value trees are the inductive `Yaml` below: string, integer,
  boolean and null scalars, ordered sequences, and key-ordered mappings
  (Python dicts preserve insertion order, so mappings are association lists).
* Python `str.format` with keywords version and variant is modelled by `formatString`,
  covering the fragment the script exercises: literal text, the escapes
  `\x7b\x7b` and `\x7d\x7d`, and simple keyword replacement fields
  `\x7bname\x7d` (no conversions, no format specs, no attribute or index
  access).  An unknown field name is a `KeyError`, a stray or unclosed brace a
  `ValueError` — as in CPython on this fragment.
* Python `str.replace` (replace every non-overlapping occurrence,
  left to right) is modelled by `replaceAll` for the non-empty patterns the
  script uses.
* `sys.exit(1)` after a diagnostic message is the error value
  `RunErr.fatalExit msg`; uncaught Python exceptions are the other `RunErr`
  constructors.  A run that produces `Except.error _` terminates before the
  output-emission step, so no output file is written.
-/

/-- A YAML/JSON value tree as handled by the script: scalars, ordered
sequences, and insertion-ordered mappings. -/
inductive Yaml where
  | str (s : String)
  | int (n : Int)
  | bool (b : Bool)
  | null
  | arr (items : List Yaml)
  | obj (entries : List (String × Yaml))

/-- Errors raised by `str.format`: `KeyError` for an unrecognized field name,
`ValueError` for a malformed format string (stray or unclosed brace). -/
inductive FmtErr where
  | keyError (name : String)
  | valueError
deriving DecidableEq

/-- Resolve a replacement-field name against the keyword arguments
`version=...`, `variant=...` of the script's `value.format(...)` call. -/
def lookupField (version variant : String) (name : List Char) :
    Except FmtErr (List Char) :=
  if name = "version".data then .ok version.data
  else if name = "variant".data then .ok variant.data
  else .error (.keyError ⟨name⟩)

/-- One-pass scanner of CPython `str.format` restricted to the keyword-field
fragment.  The first argument is the scanner mode: `none` while in literal
text, `some acc` while collecting a replacement-field name (accumulated in
reverse).  `\x7b\x7b` and `\x7d\x7d` are escapes, `\x7bname\x7d` is a
replacement field, a lone `\x7d` or an unclosed field is a `ValueError`. -/
def formatScanAux (version variant : String) :
    Option (List Char) → List Char → Except FmtErr (List Char)
  | none, [] => .ok []
  | none, '{' :: '{' :: rest => (fun t => '{' :: t) <$> formatScanAux version variant none rest
  | none, '{' :: rest => formatScanAux version variant (some []) rest
  | none, '}' :: '}' :: rest => (fun t => '}' :: t) <$> formatScanAux version variant none rest
  | none, '}' :: _ => .error .valueError
  | none, c :: rest => (fun t => c :: t) <$> formatScanAux version variant none rest
  | some _, [] => .error .valueError
  | some acc, '}' :: rest => do
    let v ← lookupField version variant acc.reverse
    let t ← formatScanAux version variant none rest
    return v ++ t
  | some acc, c :: rest => formatScanAux version variant (some (c :: acc)) rest

/-- The script's `value.format(version=version, variant=variant)` on a string
value. -/
def formatString (version variant s : String) : Except FmtErr String :=
  (fun l => (⟨l⟩ : String)) <$> formatScanAux version variant none s.data

example : formatString "3.2.0" "CUDA" "vLLM \x7bversion\x7d for \x7bvariant\x7d"
    = .ok "vLLM 3.2.0 for CUDA" := rfl

example : formatString "3.2.0" "CUDA" "a\x7b\x7bb\x7d\x7dc" = .ok "a\x7bb\x7dc" := rfl

example : formatString "3.2.0" "CUDA" "\x7bfoo\x7d" = .error (.keyError "foo") := rfl

example : formatString "3.2.0" "CUDA" "oops\x7d" = .error .valueError := rfl

mutual
/-- The inner `substitute` closure of `apply_template_substitutions`
(lines 153-160 of the script): format string leaves, recurse into lists and
dict values (keys untouched), pass every other value through. -/
def substitute (version variant : String) : Yaml → Except FmtErr Yaml
  | .str s => (fun t => Yaml.str t) <$> formatString version variant s
  | .int n => .ok (.int n)
  | .bool b => .ok (.bool b)
  | .null => .ok .null
  | .arr items => (fun l => Yaml.arr l) <$> substituteList version variant items
  | .obj entries => (fun l => Yaml.obj l) <$> substituteObj version variant entries

/-- Python list comprehension `[substitute(item) for item in value]`. -/
def substituteList (version variant : String) : List Yaml → Except FmtErr (List Yaml)
  | [] => .ok []
  | x :: xs => do
    let y ← substitute version variant x
    let ys ← substituteList version variant xs
    return y :: ys

/-- Python dict comprehension: substitute each value, keep each key. -/
def substituteObj (version variant : String) :
    List (String × Yaml) → Except FmtErr (List (String × Yaml))
  | [] => .ok []
  | (k, v) :: es => do
    let v2 ← substitute version variant v
    let vs ← substituteObj version variant es
    return (k, v2) :: vs
end

/-- The function `apply_template_substitutions` of the script
(lines 139-162). -/
def apply_template_substitutions (template : Yaml) (version variant : String) :
    Except FmtErr Yaml :=
  substitute version variant template

/-- Helper for `replaceAll`: while the skip counter is positive the characters
belong to an already-replaced occurrence of the pattern and are dropped;
at zero, test for a fresh occurrence of the pattern. -/
def replaceAllAux (pat rep : List Char) : Nat → List Char → List Char
  | 0, [] => []
  | 0, c :: rest =>
    if pat.isPrefixOf (c :: rest) && !pat.isEmpty then
      rep ++ replaceAllAux pat rep (pat.length - 1) rest
    else
      c :: replaceAllAux pat rep 0 rest
  | _ + 1, [] => []
  | k + 1, _ :: rest => replaceAllAux pat rep k rest

/-- Python `str.replace` for a non-empty pattern: every
non-overlapping occurrence is replaced, scanning left to right. -/
def replaceAll (pat rep l : List Char) : List Char :=
  replaceAllAux pat rep 0 l

/-- Python `in` substring test (for non-empty `pat`). -/
def containsSub (pat : List Char) : List Char → Bool
  | [] => pat.isEmpty
  | c :: rest => pat.isPrefixOf (c :: rest) || containsSub pat rest

/-- Python `str.lower` (the component names involved are ASCII). -/
def pyLower (s : String) : String :=
  ⟨s.data.map Char.toLower⟩

/-- The `variant_map` dict of `derive_variant_from_component` in its insertion
order (lines 88-95 of the script). -/
def variant_map : List (String × String) :=
  [("rocm", "ROCm"), ("cuda", "CUDA"), ("cpu", "CPU"),
   ("gaudi", "Gaudi"), ("tpu", "TPU"), ("spyre", "Spyre")]

/-- The function `derive_variant_from_component` (lines 67-101): the first
pattern of `variant_map` contained in the lowercased name wins, else
`"Unknown"`. -/
def derive_variant_from_component (component_name : String) : String :=
  let component_lower := pyLower component_name
  match variant_map.find? (fun p => containsSub p.1.data component_lower.data) with
  | some p => p.2
  | none => "Unknown"

/-- The function `derive_prod_release_plan` (lines 104-118): the Python
expression `stage_plan.replace("-stage", "-prod")`. -/
def derive_prod_release_plan (stage_plan : String) : String :=
  ⟨replaceAll "-stage".data "-prod".data stage_plan.data⟩

/-- The function `generate_release_name` (lines 165-179): the f-string
`component-version_dashes-prod-1` with
`version_dashes = version.replace(".", "-")`. -/
def generate_release_name (component version : String) : String :=
  component ++ "-" ++ (⟨replaceAll ".".data "-".data version.data⟩ : String) ++ "-prod-1"

example : derive_prod_release_plan "base-images-stage" = "base-images-prod" := rfl
example : derive_prod_release_plan "base-images-stage-3-0" = "base-images-prod-3-0" := rfl
example : derive_prod_release_plan "base-images-stage-stage" = "base-images-prod-prod" := rfl
example : derive_variant_from_component "base-image-rocm-7-0" = "ROCm" := rfl
example : derive_variant_from_component "base-image-xyz" = "Unknown" := rfl
example : generate_release_name "base-image-cuda-12-9" "3.2.0" = "base-image-cuda-12-9-3-2-0-prod-1" := rfl

/-- How a run can terminate early: `fatalExit msg` is the script's
message-to-stderr-then-`sys.exit(1)` path; the other constructors are uncaught
Python exceptions (which also end the process with a non-zero status, but not
through the documented message-and-exit path).  `attributeError m` records the
method whose lookup failed (`"lower"`, `"replace"`, `"get"`). -/
inductive RunErr where
  | fatalExit (msg : String)
  | keyError (k : String)
  | typeError
  | attributeError (method : String)
  | formatError (e : FmtErr)
deriving DecidableEq

/-- First-match association-list lookup (Python dict keys are unique, so this
is dict lookup). -/
def lookupEntry (k : String) : List (String × Yaml) → Option Yaml
  | [] => none
  | (k2, v) :: rest => if k2 = k then some v else lookupEntry k rest

/-- Python subscript `d[k]`: `KeyError` when the key is absent, `TypeError` when the
value is not a dict. -/
def getItem (y : Yaml) (k : String) : Except RunErr Yaml :=
  match y with
  | .obj es =>
    match lookupEntry k es with
    | some v => .ok v
    | none => .error (.keyError k)
  | _ => .error .typeError

/-- Python `dict.get`: `None` when the key is absent, `AttributeError` when
the value is not a dict. -/
def dictGet (y : Yaml) (k : String) : Except RunErr (Option Yaml) :=
  match y with
  | .obj es => .ok (lookupEntry k es)
  | _ => .error (.attributeError "get")

/-- Python truthiness on YAML/JSON values: `None`, `False`, `0`, `""`, `[]`
and `\x7b\x7d` are falsy. -/
def pyFalsy : Yaml → Bool
  | .str s => s = ""
  | .int n => n = 0
  | .bool b => !b
  | .null => true
  | .arr items => items.isEmpty
  | .obj entries => entries.isEmpty

/-- Python truthiness of a `d.get(k)` result: absent keys give `None`, which
is falsy. -/
def optFalsy : Option Yaml → Bool
  | none => true
  | some v => pyFalsy v

/-- A completed subprocess as seen by the script: exit status, stdout,
stderr. -/
structure CompletedProcess where
  returncode : Int
  stdout : String
  stderr : String

/-- The function `run_kubectl` (lines 33-45), over the completed subprocess
result: `check=True` raises `CalledProcessError` on a non-zero exit status,
and the handler prints the stderr and calls `sys.exit(1)`; on a zero status
the stdout is returned.  The model takes the single subprocess outcome as a
parameter: exactly one attempt is made, with no retry. -/
def run_kubectl (result : CompletedProcess) : Except RunErr String :=
  if result.returncode ≠ 0 then
    .error (.fatalExit ("Error running kubectl: " ++ result.stderr))
  else
    .ok result.stdout

/-- YAML-parse outcome of a present template file. -/
inductive ParseErr where
  | yamlError
deriving DecidableEq

/-- The function `load_release_notes_template` (lines 121-136), over the
outcome of reading the file: `none` = `FileNotFoundError` (template optional,
return `None`), `some (.error _)` = `yaml.YAMLError` (message and
`sys.exit(1)`), `some (.ok t)` = parsed document, where `t = none` when the
file parses to YAML null (Python `None`, e.g. an empty file). -/
def load_release_notes_template (file : Option (Except ParseErr (Option Yaml))) :
    Except RunErr (Option Yaml) :=
  match file with
  | none => .ok none
  | some (.error _) => .error (.fatalExit "Error: Invalid YAML in template")
  | some (.ok t) => .ok t

/-- The fixed-shape output document of `generate_prod_release_yaml`
(lines 219-231): insertion order of the Python dict literal, with `data`
appended last to `spec` when present (line 240). -/
def buildProdRelease (ns : Yaml) (release_name : String)
    (specEntries : List (String × Yaml)) : Yaml :=
  .obj [("apiVersion", .str "appstudio.redhat.com/v1alpha1"),
        ("kind", .str "Release"),
        ("metadata", .obj [("namespace", ns), ("name", .str release_name)]),
        ("spec", .obj specEntries)]

/-- The function `generate_prod_release_yaml` of the script
(lines 182-244). -/
def generate_prod_release_yaml (stage_release : Yaml) (version : String)
    (release_notes_template : Option Yaml) (grace_period : Int) :
    Except RunErr Yaml := do
  let metadata ← getItem stage_release "metadata"
  let spec ← getItem stage_release "spec"
  let labelsOpt ← dictGet metadata "labels"
  let labels := labelsOpt.getD (.obj [])
  let component ← dictGet labels "appstudio.openshift.io/component"
  if optFalsy component then
    throw (.fatalExit "Error: Component label not found in stage release")
  let snapshotOpt ← dictGet spec "snapshot"
  if optFalsy snapshotOpt then
    throw (.fatalExit "Error: Snapshot not found in stage release spec")
  let snapshot := snapshotOpt.getD .null
  let namespaceOpt ← dictGet metadata "namespace"
  let ns := namespaceOpt.getD .null
  let stage_planOpt ← dictGet spec "releasePlan"
  let componentStr ← match component with
    | some (.str c) => pure c
    | _ => throw (.attributeError "lower")
  let variant := derive_variant_from_component componentStr
  let prod_plan ← match stage_planOpt with
    | some (.str p) => pure (derive_prod_release_plan p)
    | _ => throw (.attributeError "replace")
  let release_name := generate_release_name componentStr version
  let baseSpec := [("snapshot", snapshot), ("releasePlan", Yaml.str prod_plan),
                   ("gracePeriodDays", Yaml.int grace_period)]
  match release_notes_template with
  | some t =>
    if pyFalsy t then
      return buildProdRelease ns release_name baseSpec
    else
      match apply_template_substitutions t version variant with
      | .ok notes =>
        return buildProdRelease ns release_name
          (baseSpec ++ [("data", .obj [("releaseNotes", notes)])])
      | .error e => throw (.formatError e)
  | none => return buildProdRelease ns release_name baseSpec

/-- The tail of `main` (lines 270-299) after the stage release has been
fetched and parsed: load the (optional) template and generate the production
release document.  `Except.error` means the process terminated (`sys.exit` or
an uncaught exception) before the output step at lines 287-299, so no output
file is written; `Except.ok doc` means `doc` is serialized and emitted. -/
def main_run (stage_release : Yaml) (version : String)
    (template_file : Option (Except ParseErr (Option Yaml))) (grace_period : Int) :
    Except RunErr Yaml := do
  let tmpl ← load_release_notes_template template_file
  generate_prod_release_yaml stage_release version tmpl grace_period

/-!  Characterization of a successful substitution run: structure preserved
(keys in order, sequence order, nesting), every string leaf formatted, every
non-string leaf identical. -/
mutual
/-- Relation between a tree and its successfully substituted image. -/
inductive SubstOk (version variant : String) : Yaml → Yaml → Prop where
  | str {s s' : String} : formatString version variant s = .ok s' →
      SubstOk version variant (.str s) (.str s')
  | int (n : Int) : SubstOk version variant (.int n) (.int n)
  | bool (b : Bool) : SubstOk version variant (.bool b) (.bool b)
  | null : SubstOk version variant .null .null
  | arr {xs ys : List Yaml} : SubstOkList version variant xs ys →
      SubstOk version variant (.arr xs) (.arr ys)
  | obj {es fs : List (String × Yaml)} : SubstOkObj version variant es fs →
      SubstOk version variant (.obj es) (.obj fs)

/-- Pointwise `SubstOk` on sequences (order and length preserved). -/
inductive SubstOkList (version variant : String) : List Yaml → List Yaml → Prop where
  | nil : SubstOkList version variant [] []
  | cons {x y : Yaml} {xs ys : List Yaml} : SubstOk version variant x y →
      SubstOkList version variant xs ys → SubstOkList version variant (x :: xs) (y :: ys)

/-- Pointwise `SubstOk` on mapping entries: keys identical and in the same
order, values related. -/
inductive SubstOkObj (version variant : String) :
    List (String × Yaml) → List (String × Yaml) → Prop where
  | nil : SubstOkObj version variant [] []
  | cons {k : String} {x y : Yaml} {es fs : List (String × Yaml)} :
      SubstOk version variant x y → SubstOkObj version variant es fs →
      SubstOkObj version variant ((k, x) :: es) ((k, y) :: fs)
end

mutual
theorem substitute_charn (v a : String) :
    ∀ (t t' : Yaml), substitute v a t = .ok t' → SubstOk v a t t'
  | .str s, t', h => by
    simp only [substitute] at h
    cases hf : formatString v a s with
    | ok s2 => rw [hf] at h; simp at h; subst h; exact .str hf
    | error e => rw [hf] at h; simp at h
  | .int n, t', h => by
    simp only [substitute] at h
    cases h
    exact .int n
  | .bool b, t', h => by
    simp only [substitute] at h
    cases h
    exact .bool b
  | .null, t', h => by
    simp only [substitute] at h
    cases h
    exact .null
  | .arr items, t', h => by
    simp only [substitute] at h
    cases hl : substituteList v a items with
    | ok ys => rw [hl] at h; simp at h; subst h; exact .arr (substituteList_charn v a items ys hl)
    | error e => rw [hl] at h; simp at h
  | .obj entries, t', h => by
    simp only [substitute] at h
    cases hl : substituteObj v a entries with
    | ok fs => rw [hl] at h; simp at h; subst h; exact .obj (substituteObj_charn v a entries fs hl)
    | error e => rw [hl] at h; simp at h

theorem substituteList_charn (v a : String) :
    ∀ (xs ys : List Yaml), substituteList v a xs = .ok ys →
      SubstOkList v a xs ys
  | [], ys, h => by
    simp only [substituteList] at h
    cases h
    exact .nil
  | x :: xs, ys, h => by
    simp only [substituteList, bind, Except.bind] at h
    cases hy : substitute v a x with
    | error e => rw [hy] at h; simp at h
    | ok y =>
      rw [hy] at h
      cases hys : substituteList v a xs with
      | error e => rw [hys] at h; simp at h
      | ok ys2 =>
        rw [hys] at h
        simp [pure, Except.pure] at h
        subst h
        exact .cons (substitute_charn v a x y hy) (substituteList_charn v a xs ys2 hys)

theorem substituteObj_charn (v a : String) :
    ∀ (es fs : List (String × Yaml)), substituteObj v a es = .ok fs →
      SubstOkObj v a es fs
  | [], fs, h => by
    simp only [substituteObj] at h
    cases h
    exact .nil
  | (k, x) :: es, fs, h => by
    simp only [substituteObj, bind, Except.bind] at h
    cases hy : substitute v a x with
    | error e => rw [hy] at h; simp at h
    | ok y =>
      rw [hy] at h
      cases hfs : substituteObj v a es with
      | error e => rw [hfs] at h; simp at h
      | ok fs2 =>
        rw [hfs] at h
        simp [pure, Except.pure] at h
        subst h
        exact .cons (substitute_charn v a x y hy) (substituteObj_charn v a es fs2 hfs)
end

example : substitute "a" "b" (Yaml.str "x") = .ok (.str "x") := rfl

/-- A string with no curly-brace character: `str.format` is the identity on
such strings. -/
def braceFreeL (l : List Char) : Bool := l.all (fun c => c != '{' && c != '}')

/-- `braceFreeL` on a `String`. -/
def braceFree (s : String) : Bool := braceFreeL s.data

/-- A simple replacement-field name, in the sense of the CPython format-string
grammar: a field is `field_name![conversion]:[format_spec]` and `field_name`
may carry attribute or index access via a dot or a bracket.  A simple name
contains no conversion marker `!`, no format-spec marker `:`, no dot and no
opening bracket, so CPython looks up the entire brace-delimited content as
the keyword name — exactly what the model does. -/
def simpleFieldName (s : String) : Bool :=
  s.data.all (fun c => c != '!' && c != ':' && c != '.' && c != '[')

theorem scan_cons_other (v a : String) (c : Char) (rest : List Char)
    (h1 : c ≠ '{') (h2 : c ≠ '}') :
    formatScanAux v a none (c :: rest)
      = (fun t => c :: t) <$> formatScanAux v a none rest := by
  simp [formatScanAux, h1, h2]

theorem scan_append (v a : String) (l1 rest : List Char) (h : braceFreeL l1 = true) :
    formatScanAux v a none (l1 ++ rest)
      = (fun t => l1 ++ t) <$> formatScanAux v a none rest := by
  induction l1 with
  | nil =>
    simp only [List.nil_append]
    cases formatScanAux v a none rest <;> rfl
  | cons c l ih =>
    simp only [braceFreeL, List.all_cons, Bool.and_eq_true, bne_iff_ne, ne_eq] at h
    obtain ⟨⟨hc1, hc2⟩, hl⟩ := h
    rw [List.cons_append, scan_cons_other v a c _ hc1 hc2,
      ih (by simpa [braceFreeL] using hl)]
    cases formatScanAux v a none rest <;> rfl

theorem scan_collect (v a : String) (c : Char) (acc rest : List Char) (h : c ≠ '}') :
    formatScanAux v a (some acc) (c :: rest)
      = formatScanAux v a (some (c :: acc)) rest := by
  simp [formatScanAux, h]

theorem scan_field_mode (v a : String) (name : List Char) :
    ∀ (acc rest : List Char), braceFreeL name = true →
    formatScanAux v a (some acc) (name ++ '}' :: rest)
      = do
        let val ← lookupField v a (acc.reverse ++ name)
        let t ← formatScanAux v a none rest
        return val ++ t := by
  induction name with
  | nil =>
    intro acc rest _
    simp [formatScanAux]
  | cons c n ih =>
    intro acc rest h
    simp only [braceFreeL, List.all_cons, Bool.and_eq_true, bne_iff_ne, ne_eq] at h
    obtain ⟨⟨hc1, hc2⟩, hn⟩ := h
    rw [List.cons_append, scan_collect v a c _ _ hc2,
      ih (c :: acc) rest (by simpa [braceFreeL] using hn)]
    simp [List.append_assoc]

theorem scan_enter_field (v a : String) (name rest : List Char)
    (h : braceFreeL name = true) :
    formatScanAux v a none ('{' :: (name ++ '}' :: rest))
      = do
        let val ← lookupField v a name
        let t ← formatScanAux v a none rest
        return val ++ t := by
  cases name with
  | nil =>
    simp [formatScanAux]
  | cons c n =>
    have h' := h
    simp only [braceFreeL, List.all_cons, Bool.and_eq_true, bne_iff_ne, ne_eq] at h'
    obtain ⟨⟨hc1, hc2⟩, hn⟩ := h'
    have h1 : formatScanAux v a none ('{' :: ((c :: n) ++ '}' :: rest))
        = formatScanAux v a (some []) ((c :: n) ++ '}' :: rest) := by
      simp [formatScanAux, hc1]
    rw [h1, scan_field_mode v a (c :: n) [] rest h]
    simp

theorem formatString_of_braceFree (v a s : String) (h : braceFree s = true) :
    formatString v a s = .ok s := by
  have h1 := scan_append v a s.data [] h
  rw [List.append_nil] at h1
  rw [formatString, h1]
  simp [formatScanAux]

theorem formatString_version_field (v a pre post : String) (h : braceFree pre = true) :
    formatString v a (pre ++ "\x7bversion\x7d" ++ post)
      = (fun r => pre ++ v ++ r) <$> formatString v a post := by
  have hdata : (pre ++ "\x7bversion\x7d" ++ post).data
      = pre.data ++ ('{' :: ("version".data ++ '}' :: post.data)) := by
    simp [String.data_append]
  rw [formatString, hdata, scan_append v a pre.data _ h,
    scan_enter_field v a "version".data post.data (by decide)]
  have hlook : lookupField v a "version".data = .ok v.data := by
    simp [lookupField]
  rw [hlook]
  cases hpost : formatScanAux v a none post.data with
  | error e =>
    simp [formatString, hpost, Except.map, Except.bind, bind]
  | ok l =>
    simp only [formatString, hpost]
    show Except.ok (⟨pre.data ++ (v.data ++ l)⟩ : String)
      = Except.ok (pre ++ v ++ (⟨l⟩ : String))
    congr 1
    apply String.ext
    simp [String.data_append]

theorem formatString_variant_field (v a pre post : String) (h : braceFree pre = true) :
    formatString v a (pre ++ "\x7bvariant\x7d" ++ post)
      = (fun r => pre ++ a ++ r) <$> formatString v a post := by
  have hdata : (pre ++ "\x7bvariant\x7d" ++ post).data
      = pre.data ++ ('{' :: ("variant".data ++ '}' :: post.data)) := by
    simp [String.data_append]
  rw [formatString, hdata, scan_append v a pre.data _ h,
    scan_enter_field v a "variant".data post.data (by decide)]
  have hlook : lookupField v a "variant".data = .ok a.data := by
    simp [lookupField]
  rw [hlook]
  cases hpost : formatScanAux v a none post.data with
  | error e =>
    simp [formatString, hpost, Except.map, Except.bind, bind]
  | ok l =>
    simp only [formatString, hpost]
    show Except.ok (⟨pre.data ++ (a.data ++ l)⟩ : String)
      = Except.ok (pre ++ a ++ (⟨l⟩ : String))
    congr 1
    apply String.ext
    simp [String.data_append]

theorem formatString_unknown_field (v a pre name post : String)
    (hpre : braceFree pre = true) (hname : braceFree name = true)
    (hv : name ≠ "version") (ha : name ≠ "variant") :
    formatString v a (pre ++ "\x7b" ++ name ++ "\x7d" ++ post)
      = .error (.keyError name) := by
  have hdata : (pre ++ "\x7b" ++ name ++ "\x7d" ++ post).data
      = pre.data ++ ('{' :: (name.data ++ '}' :: post.data)) := by
    simp [String.data_append]
  rw [formatString, hdata, scan_append v a pre.data _ hpre,
    scan_enter_field v a name.data post.data hname]
  have hlook : lookupField v a name.data = .error (.keyError name) := by
    rw [lookupField]
    rw [if_neg (fun hc => hv (String.ext hc)), if_neg (fun hc => ha (String.ext hc))]
  rw [hlook]
  rfl

/-- The string `s` occurs as a string leaf of the tree. -/
inductive StrLeafMem (s : String) : Yaml → Prop where
  | here : StrLeafMem s (.str s)
  | arr {y : Yaml} {xs : List Yaml} : y ∈ xs → StrLeafMem s y → StrLeafMem s (.arr xs)
  | obj {e : String × Yaml} {es : List (String × Yaml)} : e ∈ es → StrLeafMem s e.2 →
      StrLeafMem s (.obj es)

theorem substituteList_ok_mem (v a : String) (xs ys : List Yaml)
    (h : substituteList v a xs = .ok ys) :
    ∀ x ∈ xs, ∃ y, substitute v a x = .ok y := by
  induction xs generalizing ys with
  | nil => intro x hx; cases hx
  | cons x xs ih =>
    intro z hz
    simp only [substituteList, bind, Except.bind] at h
    cases hy : substitute v a x with
    | error e => rw [hy] at h; simp at h
    | ok y =>
      rw [hy] at h
      cases hys : substituteList v a xs with
      | error e => rw [hys] at h; simp at h
      | ok ys2 =>
        rcases List.mem_cons.mp hz with hzx | hzxs
        · exact ⟨y, hzx ▸ hy⟩
        · exact ih ys2 hys z hzxs

theorem substituteObj_ok_mem (v a : String) (es fs : List (String × Yaml))
    (h : substituteObj v a es = .ok fs) :
    ∀ e ∈ es, ∃ y, substitute v a e.2 = .ok y := by
  induction es generalizing fs with
  | nil => intro e he; cases he
  | cons e es ih =>
    intro z hz
    obtain ⟨k, x⟩ := e
    simp only [substituteObj, bind, Except.bind] at h
    cases hy : substitute v a x with
    | error er => rw [hy] at h; simp at h
    | ok y =>
      rw [hy] at h
      cases hfs : substituteObj v a es with
      | error er => rw [hfs] at h; simp at h
      | ok fs2 =>
        rcases List.mem_cons.mp hz with hzx | hzes
        · subst hzx; exact ⟨y, hy⟩
        · exact ih fs2 hfs z hzes

theorem substitute_not_ok_of_leaf_error (v a : String) {s : String} {e : FmtErr}
    (hf : formatString v a s = .error e) {t : Yaml} (hmem : StrLeafMem s t) :
    ∀ t', substitute v a t ≠ .ok t' := by
  induction hmem with
  | here =>
    intro t' ht
    simp [substitute, hf] at ht
  | arr hy _ ih =>
    intro t' ht
    simp only [substitute] at ht
    cases hl : substituteList v a _ with
    | error er => rw [hl] at ht; simp at ht
    | ok ys =>
      obtain ⟨y2, hy2⟩ := substituteList_ok_mem v a _ ys hl _ hy
      exact ih y2 hy2
  | obj he _ ih =>
    intro t' ht
    simp only [substitute] at ht
    cases hl : substituteObj v a _ with
    | error er => rw [hl] at ht; simp at ht
    | ok fs =>
      obtain ⟨y2, hy2⟩ := substituteObj_ok_mem v a _ fs hl _ he
      exact ih y2 hy2

/-- C1 counterexample: the claim that every string leaf without placeholders
is unchanged fails on the leaf `\x7b\x7b`: Python `str.format` collapses the
brace escape, so the substituted tree differs from the input even though the
string contains no replacement field. -/
theorem c1_substitution_counterexample :
    apply_template_substitutions (Yaml.str "\x7b\x7b") "3.2.0" "CUDA"
        = .ok (Yaml.str "\x7b")
      ∧ apply_template_substitutions (Yaml.str "\x7b\x7b") "3.2.0" "CUDA"
        ≠ .ok (Yaml.str "\x7b\x7b") := by
  refine ⟨rfl, fun h => ?_⟩
  rw [show apply_template_substitutions (Yaml.str "\x7b\x7b") "3.2.0" "CUDA"
      = .ok (Yaml.str "\x7b") from rfl] at h
  injection h with h1
  injection h1 with h2
  exact absurd h2 (by decide)

/-- C1 (amended): whenever `apply_template_substitutions` succeeds, the
result has identical structural shape (same mapping keys in the same order,
same sequence order, same nesting), every non-string leaf is identical by
value, and every string leaf is rewritten by the recognized-placeholder
formatting: a leaf with no curly brace is unchanged, and a
`\x7bversion\x7d` or `\x7bvariant\x7d` field after brace-free text is
replaced by the corresponding substitution value.  The embedding is a pure
Lean function, so the operation mutates nothing and is deterministic. -/
theorem c1_substitution_structure :
    (∀ (t : Yaml) (version variant : String) (t' : Yaml),
        apply_template_substitutions t version variant = .ok t' →
        SubstOk version variant t t')
    ∧ (∀ (version variant s : String), braceFree s = true →
        formatString version variant s = .ok s)
    ∧ (∀ (version variant pre post : String), braceFree pre = true →
        formatString version variant (pre ++ "\x7bversion\x7d" ++ post)
          = (fun r => pre ++ version ++ r) <$> formatString version variant post)
    ∧ (∀ (version variant pre post : String), braceFree pre = true →
        formatString version variant (pre ++ "\x7bvariant\x7d" ++ post)
          = (fun r => pre ++ variant ++ r) <$> formatString version variant post) :=
  ⟨fun t v a t' h => substitute_charn v a t t' h,
   formatString_of_braceFree,
   formatString_version_field,
   formatString_variant_field⟩

/-- C1 witness: the amended theorem applied at concrete inputs. -/
theorem c1_substitution_witness :
    SubstOk "3.2.0" "CUDA"
      (Yaml.obj [("title", .str "vLLM \x7bversion\x7d (\x7bvariant\x7d)"), ("n", .int 5)])
      (Yaml.obj [("title", .str "vLLM 3.2.0 (CUDA)"), ("n", .int 5)])
    ∧ formatString "1.0" "X" "plain-text" = .ok "plain-text"
    ∧ formatString "9" "X" ("pre " ++ "\x7bversion\x7d" ++ " post") = .ok "pre 9 post"
    ∧ formatString "9" "ROCm" ("pre " ++ "\x7bvariant\x7d" ++ " post") = .ok "pre ROCm post" :=
  ⟨c1_substitution_structure.1 _ "3.2.0" "CUDA" _ rfl,
   c1_substitution_structure.2.1 "1.0" "X" "plain-text" rfl,
   (c1_substitution_structure.2.2.1 "9" "X" "pre " " post" rfl).trans (by rfl),
   (c1_substitution_structure.2.2.2 "9" "ROCm" "pre " " post" rfl).trans (by rfl)⟩

/-- C2: a tree containing a string leaf with a well-formed replacement field
whose placeholder name is outside the recognized set (neither `version` nor
`variant`) makes `apply_template_substitutions` fail with a propagated error.
The name is required to be simple (`simpleFieldName`): a field such as
`version!s` or `version:>10` carries a conversion or a format spec, its
CPython field name is the recognized `version`, and the program succeeds on
it, so such fields are not unknown placeholders. -/
theorem c2_unknown_placeholder_raises (version variant : String) (t : Yaml)
    (s pre name post : String)
    (hmem : StrLeafMem s t)
    (hs : s = pre ++ "\x7b" ++ name ++ "\x7d" ++ post)
    (hpre : braceFree pre = true) (hname : braceFree name = true)
    (hsimple : simpleFieldName name = true)
    (hv : name ≠ "version") (ha : name ≠ "variant") :
    ∃ e, apply_template_substitutions t version variant = .error e := by
  have hf : formatString version variant s = .error (.keyError name) := by
    rw [hs]
    exact formatString_unknown_field version variant pre name post hpre hname hv ha
  have hnot := substitute_not_ok_of_leaf_error version variant hf hmem
  cases hres : substitute version variant t with
  | ok t' => exact absurd hres (hnot t')
  | error e => exact ⟨e, hres⟩

/-- C2 witness: the theorem applied at a concrete tree containing the
unknown placeholder name `fixes`. -/
theorem c2_unknown_placeholder_witness :
    ∃ e, apply_template_substitutions
      (Yaml.obj [("notes", Yaml.arr [Yaml.str "has \x7bfixes\x7d inside"])])
      "1.2.3" "CPU" = .error e :=
  c2_unknown_placeholder_raises "1.2.3" "CPU" _ "has \x7bfixes\x7d inside" "has " "fixes" " inside"
    (.obj (List.mem_cons_self _ _) (.arr (List.mem_cons_self _ _) .here))
    rfl rfl rfl (by decide) (by decide) (by decide)

theorem replaceAllAux_of_not_contains (pat rep : List Char) (l : List Char)
    (h : containsSub pat l = false) : replaceAllAux pat rep 0 l = l := by
  induction l with
  | nil => rfl
  | cons c rest ih =>
    simp only [containsSub, Bool.or_eq_false_iff] at h
    obtain ⟨h1, h2⟩ := h
    simp [replaceAllAux, h1, ih h2]

theorem replaceAllAux_skip (pat rep : List Char) :
    ∀ (l1 l2 : List Char), replaceAllAux pat rep l1.length (l1 ++ l2)
      = replaceAllAux pat rep 0 l2 := by
  intro l1
  induction l1 with
  | nil => intro l2; rfl
  | cons c rest ih => intro l2; simpa [replaceAllAux] using ih l2

theorem replaceAllAux_head_match (p : Char) (ps rep : List Char) (l : List Char) :
    replaceAllAux (p :: ps) rep 0 ((p :: ps) ++ l)
      = rep ++ replaceAllAux (p :: ps) rep 0 l := by
  have hpre : (p :: ps).isPrefixOf (p :: (ps ++ l)) = true :=
    List.isPrefixOf_iff_prefix.mpr
      (by rw [show (p :: (ps ++ l)) = (p :: ps) ++ l from rfl]; exact List.prefix_append _ _)
  rw [List.cons_append]
  simp only [replaceAllAux, hpre, List.isEmpty_cons, Bool.not_false, Bool.and_self, if_true]
  rw [List.length_cons, Nat.add_sub_cancel, replaceAllAux_skip (p :: ps) rep ps l]

theorem replaceAllAux_dot_map (l : List Char) :
    replaceAllAux ['.'] ['-'] 0 l
      = l.map (fun c => if c = '.' then '-' else c) := by
  induction l with
  | nil => rfl
  | cons c rest ih =>
    by_cases hc : c = '.'
    · subst hc
      have hpre : (['.'] : List Char).isPrefixOf ('.' :: rest) = true := by
        simp [List.isPrefixOf]
      simp [replaceAllAux, hpre, ih]
    · have hpre : (['.'] : List Char).isPrefixOf (c :: rest) = false := by
        simp [List.isPrefixOf]
        exact fun h => hc h.symm
      simp [replaceAllAux, hpre, ih, hc]

/-- C3 counterexample: the claim that only the first occurrence of
`-stage` is replaced fails on `base-images-stage-stage`: the code (Python
`str.replace`) replaces every occurrence, yielding `base-images-prod-prod`,
not `base-images-prod-stage`. -/
theorem c3_replace_counterexample :
    derive_prod_release_plan "base-images-stage-stage" = "base-images-prod-prod"
    ∧ derive_prod_release_plan "base-images-stage-stage" ≠ "base-images-prod-stage" :=
  ⟨rfl, by decide⟩

/-- C3 (amended): `derive_prod_release_plan` replaces every non-overlapping
occurrence of `-stage` by `-prod`, scanning left to right: a string without
`-stage` is returned unchanged, a leading occurrence is rewritten and the
scan continues on the remainder, and the two examples of the spec hold. -/
theorem c3_derive_prod_release_plan_amended :
    (∀ s : String, containsSub "-stage".data s.data = false →
        derive_prod_release_plan s = s)
    ∧ (∀ b : String, derive_prod_release_plan ("-stage" ++ b)
        = "-prod" ++ derive_prod_release_plan b)
    ∧ derive_prod_release_plan "base-images-stage" = "base-images-prod"
    ∧ derive_prod_release_plan "base-images-stage-3-0" = "base-images-prod-3-0" := by
  refine ⟨?_, ?_, rfl, rfl⟩
  · intro s h
    apply String.ext
    show replaceAll "-stage".data "-prod".data s.data = s.data
    exact replaceAllAux_of_not_contains _ _ _ h
  · intro b
    apply String.ext
    show replaceAll "-stage".data "-prod".data ("-stage" ++ b).data
      = ("-prod" ++ derive_prod_release_plan b).data
    rw [String.data_append, String.data_append]
    show replaceAllAux "-stage".data "-prod".data 0 ("-stage".data ++ b.data)
      = "-prod".data ++ replaceAllAux "-stage".data "-prod".data 0 b.data
    exact replaceAllAux_head_match '-' "stage".data "-prod".data b.data

/-- C3 witness: the amended theorem applied to a plan without `-stage`. -/
theorem c3_derive_prod_release_plan_witness :
    derive_prod_release_plan "base-images-prod-plan" = "base-images-prod-plan" :=
  c3_derive_prod_release_plan_amended.1 "base-images-prod-plan" (by decide)

/-- C5: `generate_release_name` returns the concatenation of the component,
a dash, the version with every dot replaced by a dash, and `-prod-1`;
in particular the example of the spec holds. -/
theorem c5_generate_release_name :
    (∀ component version : String,
      generate_release_name component version
        = component ++ "-"
          ++ (⟨version.data.map (fun c => if c = '.' then '-' else c)⟩ : String)
          ++ "-prod-1")
    ∧ generate_release_name "base-image-cuda-12-9" "3.2.0"
        = "base-image-cuda-12-9-3-2-0-prod-1" := by
  refine ⟨?_, rfl⟩
  intro component version
  rw [generate_release_name]
  congr 2
  apply String.ext
  exact replaceAllAux_dot_map version.data

/-- C4: `derive_variant_from_component` tests the lowercased name against
the patterns rocm, cuda, cpu, gaudi, tpu, spyre in this fixed order; the
first contained pattern determines the label, and if none is contained the
result is the literal `Unknown`.  The function is total (never fails). -/
theorem c4_derive_variant_priority :
    (∀ s : String, containsSub "rocm".data (pyLower s).data = true →
        derive_variant_from_component s = "ROCm")
    ∧ (∀ s : String, containsSub "rocm".data (pyLower s).data = false →
        containsSub "cuda".data (pyLower s).data = true →
        derive_variant_from_component s = "CUDA")
    ∧ (∀ s : String, containsSub "rocm".data (pyLower s).data = false →
        containsSub "cuda".data (pyLower s).data = false →
        containsSub "cpu".data (pyLower s).data = true →
        derive_variant_from_component s = "CPU")
    ∧ (∀ s : String, containsSub "rocm".data (pyLower s).data = false →
        containsSub "cuda".data (pyLower s).data = false →
        containsSub "cpu".data (pyLower s).data = false →
        containsSub "gaudi".data (pyLower s).data = true →
        derive_variant_from_component s = "Gaudi")
    ∧ (∀ s : String, containsSub "rocm".data (pyLower s).data = false →
        containsSub "cuda".data (pyLower s).data = false →
        containsSub "cpu".data (pyLower s).data = false →
        containsSub "gaudi".data (pyLower s).data = false →
        containsSub "tpu".data (pyLower s).data = true →
        derive_variant_from_component s = "TPU")
    ∧ (∀ s : String, containsSub "rocm".data (pyLower s).data = false →
        containsSub "cuda".data (pyLower s).data = false →
        containsSub "cpu".data (pyLower s).data = false →
        containsSub "gaudi".data (pyLower s).data = false →
        containsSub "tpu".data (pyLower s).data = false →
        containsSub "spyre".data (pyLower s).data = true →
        derive_variant_from_component s = "Spyre")
    ∧ (∀ s : String, containsSub "rocm".data (pyLower s).data = false →
        containsSub "cuda".data (pyLower s).data = false →
        containsSub "cpu".data (pyLower s).data = false →
        containsSub "gaudi".data (pyLower s).data = false →
        containsSub "tpu".data (pyLower s).data = false →
        containsSub "spyre".data (pyLower s).data = false →
        derive_variant_from_component s = "Unknown") := by
  refine ⟨?_, ?_, ?_, ?_, ?_, ?_, ?_⟩ <;>
    (intro s
     intros
     simp_all [derive_variant_from_component, variant_map, List.find?])

/-- C4 witness: the theorem applied at concrete component names, including
one containing both `cuda` and `cpu` (the earlier table entry wins). -/
theorem c4_derive_variant_witness :
    derive_variant_from_component "base-image-rocm-7-0" = "ROCm"
    ∧ derive_variant_from_component "mix-cuda-cpu" = "CUDA"
    ∧ derive_variant_from_component "base-image-xyz" = "Unknown" :=
  ⟨c4_derive_variant_priority.1 "base-image-rocm-7-0" (by decide),
   c4_derive_variant_priority.2.1 "mix-cuda-cpu" (by decide) (by decide),
   c4_derive_variant_priority.2.2.2.2.2.2 "base-image-xyz" (by decide) (by decide) (by decide) (by decide)
     (by decide) (by decide)⟩

/-- C6: for a fetched stage-release object whose component label is absent,
or present and truthy but with `spec.snapshot` absent, the variant-B run
terminates through the diagnostic-message-and-`sys.exit(1)` path
(`RunErr.fatalExit`), before the output step, so no output file is
written. -/
theorem c6_missing_field_fatal_exit (version : String) (tf : Option (Except ParseErr (Option Yaml)))
    (tmpl : Option Yaml) (grace : Int)
    (entries metaObj specObj labels : List (String × Yaml))
    (hmeta : lookupEntry "metadata" entries = some (.obj metaObj))
    (hspec : lookupEntry "spec" entries = some (.obj specObj))
    (hlabels : lookupEntry "labels" metaObj = some (.obj labels))
    (htf : load_release_notes_template tf = .ok tmpl) :
    (lookupEntry "appstudio.openshift.io/component" labels = none →
      main_run (.obj entries) version tf grace
        = .error (.fatalExit "Error: Component label not found in stage release"))
    ∧ (∀ c : Yaml, lookupEntry "appstudio.openshift.io/component" labels = some c →
      pyFalsy c = false →
      lookupEntry "snapshot" specObj = none →
      main_run (.obj entries) version tf grace
        = .error (.fatalExit "Error: Snapshot not found in stage release spec")) := by
  constructor
  · intro hcomp
    simp [main_run, generate_prod_release_yaml, bind, Except.bind, getItem, dictGet,
      htf, hmeta, hspec, hlabels, hcomp, optFalsy, throw, throwThe, MonadExcept.throw,
      pure, Except.pure]
  · intro c hcomp hc hsnap
    simp [main_run, generate_prod_release_yaml, bind, Except.bind, getItem, dictGet,
      htf, hmeta, hspec, hlabels, hcomp, hc, hsnap, optFalsy, throw, throwThe,
      MonadExcept.throw, pure, Except.pure]

/-- C8: `run_kubectl` makes exactly one attempt on the single subprocess
outcome it is given: a non-zero exit status is fatal (the stderr is reported
and the process exits non-zero), a zero exit status returns the stdout. -/
theorem c8_run_kubectl_fail_fast (r : CompletedProcess) :
    (r.returncode ≠ 0 →
      run_kubectl r = .error (.fatalExit ("Error running kubectl: " ++ r.stderr)))
    ∧ (r.returncode = 0 → run_kubectl r = .ok r.stdout) := by
  constructor
  · intro h; simp [run_kubectl, h]
  · intro h; simp [run_kubectl, h]

/-- C8 witness: the theorem applied at concrete subprocess outcomes. -/
theorem c8_run_kubectl_witness :
    run_kubectl ⟨1, "", "error: release not found"⟩
      = .error (.fatalExit "Error running kubectl: error: release not found")
    ∧ run_kubectl ⟨0, "json-output", ""⟩ = .ok "json-output" :=
  ⟨(c8_run_kubectl_fail_fast ⟨1, "", "error: release not found"⟩).1 (by decide),
   (c8_run_kubectl_fail_fast ⟨0, "json-output", ""⟩).2 rfl⟩

/-- C10: the presence checks use Python truthiness, not key presence: a
component label or `spec.snapshot` present but equal to the empty string is
treated exactly like a missing key, terminating fatally with the same
diagnostic and exit code 1. -/
theorem c10_truthiness_fatal_exit (version : String) (tf : Option (Except ParseErr (Option Yaml)))
    (tmpl : Option Yaml) (grace : Int)
    (entries metaObj specObj labels : List (String × Yaml))
    (hmeta : lookupEntry "metadata" entries = some (.obj metaObj))
    (hspec : lookupEntry "spec" entries = some (.obj specObj))
    (hlabels : lookupEntry "labels" metaObj = some (.obj labels))
    (htf : load_release_notes_template tf = .ok tmpl) :
    (lookupEntry "appstudio.openshift.io/component" labels = some (.str "") →
      main_run (.obj entries) version tf grace
        = .error (.fatalExit "Error: Component label not found in stage release"))
    ∧ (∀ c : Yaml, lookupEntry "appstudio.openshift.io/component" labels = some c →
      pyFalsy c = false →
      lookupEntry "snapshot" specObj = some (.str "") →
      main_run (.obj entries) version tf grace
        = .error (.fatalExit "Error: Snapshot not found in stage release spec")) := by
  have h0 : pyFalsy (Yaml.str "") = true := rfl
  constructor
  · intro hcomp
    simp [main_run, generate_prod_release_yaml, bind, Except.bind, getItem, dictGet,
      htf, hmeta, hspec, hlabels, hcomp, h0, optFalsy, throw, throwThe,
      MonadExcept.throw, pure, Except.pure]
  · intro c hcomp hc hsnap
    simp [main_run, generate_prod_release_yaml, bind, Except.bind, getItem, dictGet,
      htf, hmeta, hspec, hlabels, hcomp, hc, hsnap, h0, optFalsy, throw, throwThe,
      MonadExcept.throw, pure, Except.pure]

/-- C9: `spec.releasePlan` is required but unguarded: on an otherwise
well-formed stage object with `releasePlan` missing or null, the run fails
with an uncaught `AttributeError` inside `derive_prod_release_plan`
(`RunErr.attributeError "replace"`), which is distinct from every
documented `fatalExit` outcome; and when `releasePlan` is a string this
failure is unreachable. -/
theorem c9_release_plan_unguarded (version : String) (tmpl : Option Yaml) (grace : Int)
    (entries metaObj specObj labels : List (String × Yaml)) (c : String) (snap : Yaml)
    (hmeta : lookupEntry "metadata" entries = some (.obj metaObj))
    (hspec : lookupEntry "spec" entries = some (.obj specObj))
    (hlabels : lookupEntry "labels" metaObj = some (.obj labels))
    (hcomp : lookupEntry "appstudio.openshift.io/component" labels = some (.str c))
    (hcne : c ≠ "")
    (hsnap : lookupEntry "snapshot" specObj = some snap)
    (hsnapt : pyFalsy snap = false) :
    ((lookupEntry "releasePlan" specObj = none
        ∨ lookupEntry "releasePlan" specObj = some .null) →
      generate_prod_release_yaml (.obj entries) version tmpl grace
        = .error (.attributeError "replace"))
    ∧ (∀ msg : String, (Except.error (RunErr.attributeError "replace") : Except RunErr Yaml)
        ≠ .error (.fatalExit msg))
    ∧ (∀ p : String, lookupEntry "releasePlan" specObj = some (.str p) →
      generate_prod_release_yaml (.obj entries) version tmpl grace
        ≠ .error (.attributeError "replace")) := by
  have hcf : pyFalsy (Yaml.str c) = false := by simp [pyFalsy, hcne]
  refine ⟨?_, ?_, ?_⟩
  · intro hplan
    rcases hplan with hplan | hplan <;>
      simp [generate_prod_release_yaml, bind, Except.bind, getItem, dictGet,
        hmeta, hspec, hlabels, hcomp, hsnap, hplan, optFalsy, hcf, hsnapt,
        throw, throwThe, MonadExcept.throw, pure, Except.pure]
  · intro msg h
    simp at h
  · intro p hplan
    simp only [generate_prod_release_yaml, bind, Except.bind, getItem, dictGet,
      hmeta, hspec, hlabels, hcomp, hsnap, hplan, optFalsy, hcf, hsnapt,
      throw, throwThe, MonadExcept.throw, pure, Except.pure]
    simp only [Option.getD_some, hcomp, hcf]
    cases tmpl with
    | none => simp
    | some t =>
      by_cases ht : pyFalsy t = true
      · simp [ht]
      · simp only [ht, if_false, Bool.false_eq_true]
        cases happ : apply_template_substitutions t version (derive_variant_from_component c) with
        | ok notes => simp [happ]
        | error e => simp [happ, MonadExceptOf.throw, throw, throwThe]

/-- The output document carries a `spec.data` field. -/
def specDataPresent (doc : Yaml) : Prop :=
  ∃ es fs, doc = .obj es ∧ lookupEntry "spec" es = some (.obj fs)
    ∧ ∃ d, lookupEntry "data" fs = some d

/-- Helper: with a missing or falsy template, the generated document has
exactly the three base `spec` entries and no `data` key. -/
theorem generate_no_template (version : String) (grace : Int)
    (entries metaObj specObj labels : List (String × Yaml)) (c : String)
    (snap : Yaml) (p : String)
    (hmeta : lookupEntry "metadata" entries = some (.obj metaObj))
    (hspec : lookupEntry "spec" entries = some (.obj specObj))
    (hlabels : lookupEntry "labels" metaObj = some (.obj labels))
    (hcomp : lookupEntry "appstudio.openshift.io/component" labels = some (.str c))
    (hcne : c ≠ "")
    (hsnap : lookupEntry "snapshot" specObj = some snap)
    (hsnapt : pyFalsy snap = false)
    (hplan : lookupEntry "releasePlan" specObj = some (.str p))
    (tmpl : Option Yaml) (htmpl : optFalsy tmpl = true) :
    generate_prod_release_yaml (.obj entries) version tmpl grace
      = .ok (buildProdRelease ((lookupEntry "namespace" metaObj).getD .null)
          (generate_release_name c version)
          [("snapshot", snap), ("releasePlan", .str (derive_prod_release_plan p)),
           ("gracePeriodDays", .int grace)]) := by
  have hcf : pyFalsy (Yaml.str c) = false := by simp [pyFalsy, hcne]
  cases tmpl with
  | none =>
    simp [generate_prod_release_yaml, bind, Except.bind, getItem, dictGet,
      hmeta, hspec, hlabels, hcomp, hsnap, hplan, optFalsy, hcf, hsnapt,
      throw, throwThe, MonadExcept.throw, pure, Except.pure]
  | some t =>
    have ht : pyFalsy t = true := by simpa [optFalsy] using htmpl
    simp [generate_prod_release_yaml, bind, Except.bind, getItem, dictGet,
      hmeta, hspec, hlabels, hcomp, hsnap, hplan, optFalsy, hcf, hsnapt, ht,
      throw, throwThe, MonadExcept.throw, pure, Except.pure]

/-- C7: the template is optional in the variant-B workflow: a missing
template file makes the loader return `None` and the run continues,
producing a document whose `spec` has exactly the three base entries and no
`data` key at all; and `spec.data` (with `releaseNotes`) appears in an
emitted document only when the template file was present, parsed
successfully, and was truthy. -/
theorem c7_optional_template (version : String) (grace : Int)
    (entries metaObj specObj labels : List (String × Yaml)) (c : String)
    (snap : Yaml) (p : String)
    (hmeta : lookupEntry "metadata" entries = some (.obj metaObj))
    (hspec : lookupEntry "spec" entries = some (.obj specObj))
    (hlabels : lookupEntry "labels" metaObj = some (.obj labels))
    (hcomp : lookupEntry "appstudio.openshift.io/component" labels = some (.str c))
    (hcne : c ≠ "")
    (hsnap : lookupEntry "snapshot" specObj = some snap)
    (hsnapt : pyFalsy snap = false)
    (hplan : lookupEntry "releasePlan" specObj = some (.str p)) :
    load_release_notes_template none = .ok none
    ∧ main_run (.obj entries) version none grace
        = .ok (buildProdRelease ((lookupEntry "namespace" metaObj).getD .null)
            (generate_release_name c version)
            [("snapshot", snap), ("releasePlan", .str (derive_prod_release_plan p)),
             ("gracePeriodDays", .int grace)])
    ∧ (∀ s0 r0 g0 : Yaml, lookupEntry "data"
        [("snapshot", s0), ("releasePlan", r0), ("gracePeriodDays", g0)] = none)
    ∧ (∀ (tf : Option (Except ParseErr (Option Yaml))) (doc : Yaml),
        main_run (.obj entries) version tf grace = .ok doc →
        specDataPresent doc →
        ∃ t, tf = some (.ok (some t)) ∧ pyFalsy t = false) := by
  have hgen := generate_no_template version grace entries metaObj specObj labels c snap p
    hmeta hspec hlabels hcomp hcne hsnap hsnapt hplan
  refine ⟨rfl, ?_, ?_, ?_⟩
  · show (load_release_notes_template none >>= fun tmpl =>
      generate_prod_release_yaml (.obj entries) version tmpl grace) = _
    rw [show load_release_notes_template none = .ok none from rfl]
    show generate_prod_release_yaml (.obj entries) version none grace = _
    exact hgen none rfl
  · intro s0 r0 g0
    simp [lookupEntry]
  · intro tf doc hrun hdata
    have hnodata : ∀ tmpl0 : Option Yaml, optFalsy tmpl0 = true →
        generate_prod_release_yaml (.obj entries) version tmpl0 grace = .ok doc →
        False := by
      intro tmpl0 h0 hq
      rw [hgen tmpl0 h0] at hq
      injection hq with hq
      subst hq
      obtain ⟨es, fs, hdoc, hspec2, d, hd⟩ := hdata
      rw [buildProdRelease] at hdoc
      injection hdoc with hes
      subst hes
      simp [lookupEntry] at hspec2
      subst hspec2
      simp [lookupEntry] at hd
    cases tf with
    | none =>
      exfalso
      exact hnodata none rfl (by simpa [main_run, bind, Except.bind,
        load_release_notes_template] using hrun)
    | some inner =>
      cases inner with
      | error pe =>
        exfalso
        simp [main_run, bind, Except.bind, load_release_notes_template] at hrun
      | ok t0 =>
        cases t0 with
        | none =>
          exfalso
          exact hnodata none rfl (by simpa [main_run, bind, Except.bind,
            load_release_notes_template] using hrun)
        | some t =>
          by_cases ht : pyFalsy t = true
          · exfalso
            exact hnodata (some t) (by simpa [optFalsy] using ht)
              (by simpa [main_run, bind, Except.bind, load_release_notes_template] using hrun)
          · exact ⟨t, rfl, by simpa using ht⟩

/-- C6 witness: the theorem applied to a concrete stage object without a
component label, and to one with a truthy component but no snapshot. -/
theorem c6_missing_field_witness :
    main_run (Yaml.obj [("metadata", .obj [("labels", .obj [])]),
        ("spec", .obj [("snapshot", .str "snap-1")])]) "3.2.0" none 365
      = .error (.fatalExit "Error: Component label not found in stage release")
    ∧ main_run (Yaml.obj [("metadata", .obj [("labels", .obj
          [("appstudio.openshift.io/component", .str "base-image-cpu")])]),
        ("spec", .obj [])]) "3.2.0" none 365
      = .error (.fatalExit "Error: Snapshot not found in stage release spec") :=
  ⟨(c6_missing_field_fatal_exit "3.2.0" none none 365
      [("metadata", .obj [("labels", .obj [])]),
       ("spec", .obj [("snapshot", .str "snap-1")])]
      [("labels", .obj [])] [("snapshot", .str "snap-1")] []
      rfl rfl rfl rfl).1 rfl,
   (c6_missing_field_fatal_exit "3.2.0" none none 365
      [("metadata", .obj [("labels", .obj
          [("appstudio.openshift.io/component", .str "base-image-cpu")])]),
       ("spec", .obj [])]
      [("labels", .obj [("appstudio.openshift.io/component", .str "base-image-cpu")])]
      [] [("appstudio.openshift.io/component", .str "base-image-cpu")]
      rfl rfl rfl rfl).2 (.str "base-image-cpu") rfl rfl rfl⟩

/-- C10 witness: the theorem applied to concrete stage objects in which the
component label, respectively the snapshot, is present but empty. -/
theorem c10_truthiness_witness :
    main_run (Yaml.obj [("metadata", .obj [("labels", .obj
          [("appstudio.openshift.io/component", .str "")])]),
        ("spec", .obj [("snapshot", .str "snap-1")])]) "3.2.0" none 365
      = .error (.fatalExit "Error: Component label not found in stage release")
    ∧ main_run (Yaml.obj [("metadata", .obj [("labels", .obj
          [("appstudio.openshift.io/component", .str "base-image-cpu")])]),
        ("spec", .obj [("snapshot", .str "")])]) "3.2.0" none 365
      = .error (.fatalExit "Error: Snapshot not found in stage release spec") :=
  ⟨(c10_truthiness_fatal_exit "3.2.0" none none 365
      [("metadata", .obj [("labels", .obj
          [("appstudio.openshift.io/component", .str "")])]),
       ("spec", .obj [("snapshot", .str "snap-1")])]
      [("labels", .obj [("appstudio.openshift.io/component", .str "")])]
      [("snapshot", .str "snap-1")]
      [("appstudio.openshift.io/component", .str "")]
      rfl rfl rfl rfl).1 rfl,
   (c10_truthiness_fatal_exit "3.2.0" none none 365
      [("metadata", .obj [("labels", .obj
          [("appstudio.openshift.io/component", .str "base-image-cpu")])]),
       ("spec", .obj [("snapshot", .str "")])]
      [("labels", .obj [("appstudio.openshift.io/component", .str "base-image-cpu")])]
      [("snapshot", .str "")]
      [("appstudio.openshift.io/component", .str "base-image-cpu")]
      rfl rfl rfl rfl).2 (.str "base-image-cpu") rfl rfl rfl⟩

/-- C9 witness: on a concrete stage object without `releasePlan` the run ends
in the uncaught AttributeError, and with a string `releasePlan` that error
cannot occur. -/
theorem c9_release_plan_witness :
    generate_prod_release_yaml (Yaml.obj [("metadata", .obj [("labels", .obj
          [("appstudio.openshift.io/component", .str "base-image-cuda-12-9")])]),
        ("spec", .obj [("snapshot", .str "snap-1")])]) "3.2.0" none 365
      = .error (.attributeError "replace")
    ∧ generate_prod_release_yaml (Yaml.obj [("metadata", .obj [("labels", .obj
          [("appstudio.openshift.io/component", .str "base-image-cuda-12-9")])]),
        ("spec", .obj [("snapshot", .str "snap-1"),
          ("releasePlan", .str "base-images-stage")])]) "3.2.0" none 365
      ≠ .error (.attributeError "replace") :=
  ⟨(c9_release_plan_unguarded "3.2.0" none 365
      [("metadata", .obj [("labels", .obj
          [("appstudio.openshift.io/component", .str "base-image-cuda-12-9")])]),
       ("spec", .obj [("snapshot", .str "snap-1")])]
      [("labels", .obj [("appstudio.openshift.io/component", .str "base-image-cuda-12-9")])]
      [("snapshot", .str "snap-1")]
      [("appstudio.openshift.io/component", .str "base-image-cuda-12-9")]
      "base-image-cuda-12-9" (.str "snap-1")
      rfl rfl rfl rfl (by decide) rfl rfl).1 (Or.inl rfl),
   (c9_release_plan_unguarded "3.2.0" none 365
      [("metadata", .obj [("labels", .obj
          [("appstudio.openshift.io/component", .str "base-image-cuda-12-9")])]),
       ("spec", .obj [("snapshot", .str "snap-1"),
         ("releasePlan", .str "base-images-stage")])]
      [("labels", .obj [("appstudio.openshift.io/component", .str "base-image-cuda-12-9")])]
      [("snapshot", .str "snap-1"), ("releasePlan", .str "base-images-stage")]
      [("appstudio.openshift.io/component", .str "base-image-cuda-12-9")]
      "base-image-cuda-12-9" (.str "snap-1")
      rfl rfl rfl rfl (by decide) rfl rfl).2.2 "base-images-stage" rfl⟩

/-- C7 witness: a concrete variant-B run with a missing template file
succeeds and emits a document whose `spec` has no `data` key. -/
theorem c7_optional_template_witness :
    main_run (Yaml.obj [("metadata", .obj [("namespace", .str "ai-tenant"),
        ("labels", .obj
          [("appstudio.openshift.io/component", .str "base-image-cuda-12-9")])]),
        ("spec", .obj [("snapshot", .str "snap-1"),
          ("releasePlan", .str "base-images-stage")])]) "3.2.0" none 365
      = .ok (Yaml.obj [("apiVersion", .str "appstudio.redhat.com/v1alpha1"),
          ("kind", .str "Release"),
          ("metadata", .obj [("namespace", .str "ai-tenant"),
            ("name", .str "base-image-cuda-12-9-3-2-0-prod-1")]),
          ("spec", .obj [("snapshot", .str "snap-1"),
            ("releasePlan", .str "base-images-prod"),
            ("gracePeriodDays", .int 365)])]) :=
  ((c7_optional_template "3.2.0" 365
      [("metadata", .obj [("namespace", .str "ai-tenant"),
        ("labels", .obj
          [("appstudio.openshift.io/component", .str "base-image-cuda-12-9")])]),
       ("spec", .obj [("snapshot", .str "snap-1"),
         ("releasePlan", .str "base-images-stage")])]
      [("namespace", .str "ai-tenant"),
       ("labels", .obj [("appstudio.openshift.io/component", .str "base-image-cuda-12-9")])]
      [("snapshot", .str "snap-1"), ("releasePlan", .str "base-images-stage")]
      [("appstudio.openshift.io/component", .str "base-image-cuda-12-9")]
      "base-image-cuda-12-9" (.str "snap-1") "base-images-stage"
      rfl rfl rfl rfl (by decide) rfl rfl rfl).2.1).trans rfl
